import Mathlib

/-!
Verification development for the flow graph-builder / topology-compiler /
lifecycle-manager of `jina/flow/base.py`.

The Python source is shallowly embedded: the ordered pod dictionary becomes an
association list with Python-dict insertion/overwrite semantics, Python sets of
names become `Finset String`, and fallible methods return `Except FlowError`.
Definitions are translated from `src/jina/flow/base.py`; the few collaborators
that live outside the given sources (`flow/builder.py`, the enum module, the
pod runtime) are modelled from the spec and say so in their doc comments.
-/

/-- Pod roles, from the enums module (not among the sources).
Modelled from the spec: role ∈ {WORKER/POD, GATEWAY, JOIN, INSPECT,
INSPECT_AUX_PASS, JOIN_INSPECT}. -/
inductive PodRole where
  | pod
  | join
  | inspect
  | gateway
  | inspectAuxPass
  | joinInspect
deriving DecidableEq, Repr

/-- Modelled from the spec: the REMOVE policy drops every
INSPECT/INSPECT_AUX_PASS/JOIN_INSPECT node, so those three roles are the
inspect-related ones (`role.is_inspect` in the source). -/
def PodRole.isInspect : PodRole → Bool
  | .inspect => true
  | .inspectAuxPass => true
  | .joinInspect => true
  | _ => false

/-- Inspect policies, from the enums module (not among the sources).
Modelled from the spec: COLLECT, KEEP (default), REMOVE. -/
inductive InspectPolicy where
  | keep
  | remove
  | collect
deriving DecidableEq, Repr

/-- Modelled from the spec: `FlowInspectType.is_keep` holds for every policy
except REMOVE (step 4 of the compiler applies forward substitution unless the
policy is REMOVE). -/
def InspectPolicy.isKeep : InspectPolicy → Bool
  | .remove => false
  | _ => true

/-- `FlowBuildLevel`: EMPTY → GRAPH → RUNNING. -/
inductive BuildLevel where
  | empty
  | graph
  | running
deriving DecidableEq, Repr

/-- The numeric `.value` of a build level, used by the source's comparisons
`self._build_level.value < FlowBuildLevel.GRAPH.value`. -/
def BuildLevel.val : BuildLevel → Nat
  | .empty => 0
  | .graph => 1
  | .running => 2

/-- Errors raised by the builder/compiler, from `jina.excepts` (messages are
the ones `base.py` constructs). -/
inductive FlowError where
  | topology (msg : String)
  | missingPod (msg : String)
  | nameValidation (msg : String)
deriving DecidableEq, Repr

/-- One pod node.  The fields are the slice of the pod's parsed argument
namespace that `base.py` reads or writes: identity, role, resolved dependency
set, host / exposed port, the external (lifecycle-unmanaged) flag, `num_part`,
and the socket-direction metadata that the compiler records. -/
structure Pod where
  name : String
  role : PodRole
  needs : Finset String
  host : String
  portExpose : Option Nat
  extPod : Bool
  numPart : Nat
  socketIn : Nat
  socketOut : Nat
deriving DecidableEq

/-- Association-list lookup with Python-dict semantics (`d[k]` / `k in d`). -/
def odLookup {α : Type} (m : List (String × α)) (k : String) : Option α :=
  match m with
  | [] => none
  | (k1, v1) :: t => if k1 = k then some v1 else odLookup t k

/-- Association-list insert with Python-dict semantics: an existing key is
overwritten in place (keeping its position), a new key is appended. -/
def odInsert {α : Type} (m : List (String × α)) (k : String) (v : α) :
    List (String × α) :=
  match m with
  | [] => [(k, v)]
  | (k1, v1) :: t =>
      if k1 = k then (k, v) :: t else (k1, v1) :: odInsert t k v

/-- Association-list delete (`d.pop(k)`); removing an absent key is a no-op
(the source guards deletion with `if k in d`). -/
def odRemove {α : Type} (m : List (String × α)) (k : String) :
    List (String × α) :=
  m.filter (fun kv => kv.1 ≠ k)

/-- `d.get(k, dft)`. -/
def odGetD {α : Type} (m : List (String × α)) (k : String) (dft : α) : α :=
  (odLookup m k).getD dft

/-- `d.values()`. -/
def odValues {α : Type} (m : List (String × α)) : List α := m.map (·.2)

/-- `d.keys()`. -/
def odKeys {α : Type} (m : List (String × α)) : List String := m.map (·.1)

/-- `{v: k for k, v in d.items()}` — the reverse of the inspect map; on
duplicate values the later pair wins, as in the Python comprehension. -/
def reverseDict (m : List (String × String)) : List (String × String) :=
  m.foldl (fun acc kv => odInsert acc kv.2 kv.1) []

/-- `str.isidentifier()` restricted to ASCII (all names the flow constructs
are ASCII): nonempty, first character a letter or underscore, the rest
letters, digits or underscores. -/
def isIdent (s : String) : Bool :=
  match s.data with
  | [] => false
  | c :: cs =>
      (c.isAlpha || c = '_') && cs.all (fun d => d.isAlphanum || d = '_')

/-- The value of a string of decimal digits (what `int()` does to
`m.group(2)` when the parsed namespace is built). -/
def digitsToNat (l : List Char) : Nat :=
  l.foldl (fun acc c => 10 * acc + (c.toNat - 48)) 0

/-- The port alternation of `_regex_port`:
`[0-9]{1,4}|[1-5][0-9]{4}|6[0-4][0-9]{3}|65[0-4][0-9]{2}|655[0-2][0-9]|6553[0-5]`.
A suffix matches iff it is all digits and either has 1–4 digits, or has
exactly 5 digits, no leading zero, and value at most 65535 (the five 5-digit
branches cover exactly 10000–65535). -/
def portPat (l : List Char) : Bool :=
  l ≠ [] && l.all Char.isDigit &&
    (l.length ≤ 4 ||
      (l.length = 5 && l.headD '0' ≠ '0' && digitsToNat l ≤ 65535))

/-- `re.match(_regex_port, s)`: the pattern is `(.*?):(port)$`, so the match
succeeds at the earliest `':'` whose entire remaining suffix matches the port
alternation, returning (group 1, group 2). -/
def findSplit (l : List Char) : Option (List Char × List Char) :=
  match l with
  | [] => none
  | c :: rest =>
      if c = ':' && portPat rest then some ([], rest)
      else
        match findSplit rest with
        | some (a, b) => some (c :: a, b)
        | none => none

/-- `re.match(_regex_port, host)` on a `String`. -/
def matchHostPort (s : String) : Option (String × String) :=
  (findSplit s.data).map (fun ab => (String.mk ab.1, String.mk ab.2))

/-- `__default_host__`. -/
def defaultHost : String := "0.0.0.0"

/-- The flow state: the ordered pod map `_pod_nodes`, the inspect
substitution map `_inspect_pods`, the build level, the `_last_changed_pod`
stack (represented with its top as the head), and the flow-level inspect
policy `args.inspect`. -/
structure BaseFlow where
  pods : List (String × Pod)
  inspectPods : List (String × String)
  buildLevel : BuildLevel
  lastChanged : List String
  inspectPolicy : InspectPolicy
deriving DecidableEq

/-- `BaseFlow.__init__`: empty pod map, empty inspect map, EMPTY level, and
`_last_changed_pod = ['gateway']`. -/
def initFlow (policy : InspectPolicy) : BaseFlow :=
  { pods := []
    inspectPods := []
    buildLevel := .empty
    lastChanged := ["gateway"]
    inspectPolicy := policy }

/-- `last_pod` property: the top of the `_last_changed_pod` stack (the stack
is nonempty in every reachable state; the default covers the unreachable
empty case). -/
def BaseFlow.lastPod (g : BaseFlow) : String := g.lastChanged.headD ""

/-- The polymorphic `needs` argument of `add`: `None`, a single name, or a
list of names. -/
inductive Endpoint where
  | unset
  | single (s : String)
  | many (l : List String)
deriving DecidableEq, Repr

/-- The endpoint normalization at the top of `_parse_endpoints`: a single
name becomes a one-element list; a falsy endpoint — `None` or an empty list —
defaults to the last pod when `connect_to_last_pod` is set and the
`_last_changed_pod` stack is nonempty, else to the empty list. -/
def epList (g : BaseFlow) (ep : Endpoint) (connectToLast : Bool) :
    List String :=
  match ep with
  | .single s => [s]
  | .unset => if g.lastChanged ≠ [] && connectToLast then [g.lastPod] else []
  | .many l =>
      if l = [] then
        if g.lastChanged ≠ [] && connectToLast then [g.lastPod] else []
      else l

/-- `BaseFlow._parse_endpoints`: normalize the polymorphic endpoint to a
list, reject an endpoint equal to the pod's own name with a
`FlowTopologyError`, then substitute every endpoint through `_inspect_pods`
and collect the result into a set. -/
def parseEndpoints (g : BaseFlow) (podName : String) (ep : Endpoint)
    (connectToLast : Bool) : Except FlowError (Finset String) :=
  if (epList g ep connectToLast).any (fun s => s = podName) then
    .error (.topology "the income/output of a pod can not be itself")
  else
    .ok ((epList g ep connectToLast).map
      (fun e => odGetD g.inspectPods e e)).toFinset

/-- The pod-naming logic at the top of `add`: a requested name already in the
pod map gets the current pod count appended; a falsy name becomes
`pod<count>`.  An absent `name` kwarg is represented by `""` (neither `None`
nor `''` is ever a key of the pod map). -/
def resolveName (g : BaseFlow) (nameReq : String) : String :=
  let n1 :=
    if (odLookup g.pods nameReq).isSome then
      nameReq ++ Nat.repr g.pods.length
    else nameReq
  if n1 = "" then "pod" ++ Nat.repr g.pods.length else n1

/-- The `last_pod` setter: requires the name to be present in the pod map,
pushes it on `_last_changed_pod` unless it already is the top, and resets the
build level to EMPTY. -/
def lastPodSetE (g : BaseFlow) (name : String) : Except FlowError BaseFlow :=
  if (odLookup g.pods name).isNone then
    .error (.missingPod (name ++ " can not be found in this Flow"))
  else
    .ok { g with
          lastChanged :=
            if g.lastChanged ≠ [] && name = g.lastPod then g.lastChanged
            else name :: g.lastChanged
          buildLevel := .empty }

/-- The host/port shorthand of `add`: when a `host` kwarg is present, differs
from `__default_host__`, matches `_regex_port`, and no `port_expose` kwarg was
given, split it into the host part and the exposed port. -/
def resolveHost (hostArg : Option String) (portArg : Option Nat) :
    String × Option Nat :=
  match hostArg with
  | none => (defaultHost, portArg)
  | some h =>
      match matchHostPort h with
      | some hp =>
          if h ≠ defaultHost && portArg.isNone then
            (hp.1, some (digitsToNat hp.2.data))
          else (h, portArg)
      | none => (h, portArg)

/-- `BaseFlow.add`, as a state transformer that returns the flow exactly as it
stands when an exception is raised (the source mutates `op_flow` in place in
the `copy_flow=False` mode, so this captures which mutations have happened
before each raise).  The statement order follows the source: naming, the
identifier check, `_parse_endpoints`, the host/port shorthand, the pod-map
insertion, and finally the `last_pod` setter. -/
def addSt (g : BaseFlow) (nameReq : String) (ep : Endpoint) (role : PodRole)
    (hostArg : Option String) (portArg : Option Nat) (extArg : Bool) :
    Except FlowError Unit × BaseFlow :=
  let n2 := resolveName g nameReq
  if ¬ isIdent n2 then
    (.error (.nameValidation
      ("name: " ++ n2 ++
       " is invalid, please follow the python variable name conventions")), g)
  else
    match parseEndpoints g n2 ep true with
    | .error e => (.error e, g)
    | .ok nds =>
        let hp := resolveHost hostArg portArg
        let pod : Pod :=
          { name := n2
            role := role
            needs := nds
            host := hp.1
            portExpose := hp.2
            extPod := extArg
            numPart := nds.card
            socketIn := 0
            socketOut := 0 }
        let g1 := { g with pods := odInsert g.pods n2 pod }
        match lastPodSetE g1 n2 with
        | .error e => (.error e, g1)
        | .ok g2 => (.ok (), g2)

/-- `BaseFlow.add` as a graph transformer (the value the successful call
returns). -/
def addPod (g : BaseFlow) (nameReq : String) (ep : Endpoint) (role : PodRole)
    (hostArg : Option String := none) (portArg : Option Nat := none)
    (extArg : Bool := false) : Except FlowError BaseFlow :=
  match addSt g nameReq ep role hostArg portArg extArg with
  | (.ok _, g2) => .ok g2
  | (.error e, _) => .error e

/-- `BaseFlow._add_gateway`: insert a GATEWAY pod named `gateway` with the
given dependency set, bypassing `_parse_endpoints`, the naming logic and the
`last_pod` setter. -/
def addGateway (g : BaseFlow) (nds : Finset String) : BaseFlow :=
  { g with
    pods := odInsert g.pods "gateway"
      { name := "gateway"
        role := .gateway
        needs := nds
        host := defaultHost
        portExpose := none
        extPod := false
        numPart := nds.card
        socketIn := 0
        socketOut := 0 } }

/-- `BaseFlow.needs`, as a state transformer: a `FlowTopologyError` when
`len(needs) <= 1`, otherwise `add` with role JOIN. -/
def needsSt (g : BaseFlow) (names : List String)
    (joiner : String := "joiner") : Except FlowError Unit × BaseFlow :=
  if names.length ≤ 1 then
    (.error (.topology
      "no need to wait for a single service, need len(needs) > 1"), g)
  else addSt g joiner (.many names) .join none none false

/-- `BaseFlow.needs` as a graph transformer. -/
def needsOp (g : BaseFlow) (names : List String)
    (joiner : String := "joiner") : Except FlowError BaseFlow :=
  match needsSt g names joiner with
  | (.ok _, g2) => .ok g2
  | (.error e, _) => .error e

/-- Modelled from the spec: `_hanging_pods` lives in `flow/builder.py`, which
is not among the sources.  Per the spec, a hanging node is a non-gateway node
with zero outgoing edges, i.e. one that no node's `needs` mentions. -/
def hangingPods (g : BaseFlow) : List String :=
  (g.pods.filter (fun kp =>
    kp.2.role ≠ .gateway &&
      g.pods.all (fun other => kp.1 ∉ other.2.needs))).map (·.1)

/-- `BaseFlow.needs_all`: collect the hanging pods; with exactly one of them
call `add` directly (default role), otherwise delegate to `needs` (which
raises when fewer than two names remain). -/
def needsAllOp (g : BaseFlow) (joiner : String := "joiner") :
    Except FlowError BaseFlow :=
  if (hangingPods g).length = 1 then addPod g joiner (.many (hangingPods g)) .pod
  else needsOp g (hangingPods g) joiner

/-- `BaseFlow.inspect`: capture the current last pod, add an INSPECT pod
depending on it, then an `_aux_<name>` INSPECT_AUX_PASS pod also depending on
it, and record `_inspect_pods[last] = <the aux pod's final name>`. -/
def inspectOp (g : BaseFlow) (name : String := "inspect") :
    Except FlowError BaseFlow :=
  let lastP := g.lastPod
  match addPod g name (.single lastP) .inspect with
  | .error e => .error e
  | .ok g1 =>
      match addPod g1 ("_aux_" ++ name) (.single lastP) .inspectAuxPass with
      | .error e => .error e
      | .ok g2 =>
          .ok { g2 with
                inspectPods := odInsert g2.inspectPods lastP g2.lastPod }

/-- `BaseFlow.gather_inspect`: collect the names of all pods whose role is
exactly INSPECT; when none exist return the flow unchanged, otherwise add a
JOIN_INSPECT pod depending on them (plus the last pod when
`include_last_pod`). -/
def gatherInspect (g : BaseFlow) (name : String := "gather_inspect")
    (includeLast : Bool := true) : Except FlowError BaseFlow :=
  let nds := (g.pods.filter (fun kp => kp.2.role = .inspect)).map (·.1)
  if nds ≠ [] then
    addPod g name (.many (nds ++ if includeLast then [g.lastPod] else []))
      .joinInspect
  else .ok g

/-- Step 1 of `build`: under the COLLECT policy, `gather_inspect` first. -/
def gatherStage (g : BaseFlow) : Except FlowError BaseFlow :=
  if g.inspectPolicy = .collect then gatherInspect g else .ok g

/-- Step 2 of `build`: when no `gateway` pod exists, synthesize one depending
on the last pod. -/
def gatewayStage (g : BaseFlow) : BaseFlow :=
  if (odLookup g.pods "gateway").isSome then g
  else addGateway g {g.lastPod}

/-- Step 4a of `build`: under the REMOVE policy, drop every inspect-related
pod from the pod map. -/
def removeStage (g : BaseFlow) : BaseFlow :=
  if g.inspectPolicy = .remove then
    { g with pods := g.pods.filter (fun kp => ¬ kp.2.role.isInspect) }
  else g

/-- The per-pod dependency rewrite of `build`'s main loop: under a keep-style
policy, non-inspect pods get their needs substituted forward through
`_inspect_pods` (inspect pods keep theirs); under REMOVE, every pod's needs
are substituted through the reversed map. -/
def rewritePods (g : BaseFlow) : List (String × Pod) :=
  g.pods.map (fun kp =>
    (kp.1,
     { kp.2 with
       needs :=
         if g.inspectPolicy.isKeep then
           if kp.2.role.isInspect then kp.2.needs
           else kp.2.needs.image (fun e => odGetD g.inspectPods e e)
         else kp.2.needs.image
           (fun e => odGetD (reverseDict g.inspectPods) e e) }))

/-- Minimum-tracking accumulator for walking a dependency set. -/
def optMin (a : Option String) (d : String) : Option String :=
  match a with
  | none => some d
  | some x => some (min x d)

/-- One step of walking a dependency set: skip a dependency present in
`names`, track the minimum of the missing ones. -/
def danglingStep (names : List String) (d : String) (acc : Option String) :
    Option String :=
  if d ∈ names then acc else optMin acc d

theorem danglingStep_pos (names : List String) (d : String)
    (acc : Option String) (h : d ∈ names) :
    danglingStep names d acc = acc := by
  unfold danglingStep
  rw [if_pos h]

theorem danglingStep_neg (names : List String) (d : String)
    (acc : Option String) (h : d ∉ names) :
    danglingStep names d acc = optMin acc d := by
  unfold danglingStep
  rw [if_neg h]

instance danglingStepLeftComm (names : List String) :
    LeftCommutative (danglingStep names) := by
  constructor
  intro d1 d2 a
  by_cases h1 : d1 ∈ names
  · by_cases h2 : d2 ∈ names
    · rw [danglingStep_pos names d2 a h2, danglingStep_pos names d1 a h1,
        danglingStep_pos names d2 a h2]
    · rw [danglingStep_neg names d2 a h2,
        danglingStep_pos names d1 (optMin a d2) h1,
        danglingStep_pos names d1 a h1, danglingStep_neg names d2 a h2]
  · by_cases h2 : d2 ∈ names
    · rw [danglingStep_pos names d2 a h2, danglingStep_neg names d1 a h1,
        danglingStep_pos names d2 (optMin a d1) h2]
    · rw [danglingStep_neg names d2 a h2,
        danglingStep_neg names d1 (optMin a d2) h1,
        danglingStep_neg names d1 a h1,
        danglingStep_neg names d2 (optMin a d1) h2]
      cases a with
      | none => simp [optMin, min_comm]
      | some x =>
          simp only [optMin, Option.some.injEq]
          exact min_right_comm x d2 d1

/-- The dependency of `s` that is missing from `names`, if any (the source
iterates a Python set, whose order is unspecified; the model reports the
lexicographically smallest missing dependency). -/
def danglingMin (names : List String) (s : Finset String) : Option String :=
  Multiset.foldr (danglingStep names) none s.val

/-- The validation of `build`'s main loop: walking the pods in insertion
order, the first pod with a rewritten dependency that is not a key of the
pod map yields that dependency. -/
def firstDangling (ps : List (String × Pod)) (names : List String) :
    Option String :=
  ps.findSome? (fun kp => danglingMin names kp.2.needs)

/-- Modelled from the spec: `_build_flow` lives in `flow/builder.py`, which
is not among the sources.  Per the spec it records final socket-direction
metadata per node from the edge structure; modelled as recording each node's
in-degree and out-degree.  It does not change names, roles or needs. -/
def socketAssign (ps : List (String × Pod)) : List (String × Pod) :=
  ps.map (fun kp =>
    (kp.1,
     { kp.2 with
       socketIn := kp.2.needs.card
       socketOut := (ps.filter (fun other => kp.1 ∈ other.2.needs)).length }))

/-- `BaseFlow.build`: gather (COLLECT), synthesize the gateway, drop inspect
pods (REMOVE), rewrite and validate every dependency, record socket metadata
(`_build_flow`), and advance the build level to GRAPH.  The hanging-pod check
only emits a warning and the client re-selection does not touch the pod map,
so neither changes the state. -/
def buildF (g : BaseFlow) : Except FlowError BaseFlow :=
  match gatherStage g with
  | .error e => .error e
  | .ok g1 =>
      match firstDangling (rewritePods (removeStage (gatewayStage g1)))
          (odKeys (removeStage (gatewayStage g1)).pods) with
      | some d =>
          .error (.missingPod (d ++ " is not in this flow, misspelled name?"))
      | none =>
          .ok { removeStage (gatewayStage g1) with
                pods := socketAssign
                  (rewritePods (removeStage (gatewayStage g1)))
                buildLevel := .graph }

/-- Runtime exceptions around `start`.  `podErr` is an exception raised by a
pod's readiness wait (`wait_start_success`), re-raised as-is by the source's
bare `raise`; `startupError` is the wrapper the spec describes (a StartupError
carrying the node identity and cause) — modelled from the spec, the source
never constructs it; `flowErr` propagates a compiler error out of the implicit
`build`. -/
inductive StartExc where
  | podErr (cause : String)
  | startupError (pod : String) (cause : String)
  | flowErr (e : FlowError)
deriving DecidableEq, Repr

/-- `BaseFlow.__exit__` together with the `ExitStack` unwinding triggered by
`close()`: every entered pod is stopped (in reverse entry order), the
synthesized `gateway` pod is popped from the pod map, and the build level is
reset to EMPTY. -/
def closeFlow (g : BaseFlow) : BaseFlow :=
  { g with pods := odRemove g.pods "gateway", buildLevel := .empty }

/-- The second loop of `start`: walk the pods in insertion order and wait for
each non-external pod's readiness.  `ready` is the readiness oracle of the
pod-runtime collaborator (not among the sources): `none` means the pod
reported ready, `some cause` that its wait raised.  Returns the first failing
pod with its exception. -/
def firstFailure (ps : List (String × Pod)) (ready : String → Option String) :
    Option (String × String) :=
  ps.findSome? (fun kp =>
    if ¬ kp.2.extPod then (ready kp.1).map (fun c => (kp.1, c)) else none)

/-- The outcome of `start`: the final flow state, the pods still held started
(entered on the `ExitStack` and not yet stopped), the pods that were stopped
(in stop order), and the exception that propagated, if any. -/
structure StartResult where
  flow : BaseFlow
  started : List String
  stopped : List String
  exc : Option StartExc
deriving DecidableEq

/-- `BaseFlow.start`: build first when below GRAPH; enter (start
non-blocking) every non-external pod in insertion order; then wait for each
non-external pod's readiness in insertion order.  On the first failure,
`close()` — which stops every entered pod in reverse order, pops the gateway
and resets the level — and then re-raise the caught exception itself.  On
success the level advances to RUNNING.  (Environment injection and logging
are outside the modelled state.) -/
def startFlow (g : BaseFlow) (ready : String → Option String) : StartResult :=
  match (if g.buildLevel.val < BuildLevel.graph.val then buildF g
         else .ok g) with
  | .error e => { flow := g, started := [], stopped := [], exc := some (.flowErr e) }
  | .ok g1 =>
      match firstFailure g1.pods ready with
      | some kc =>
          { flow := closeFlow g1
            started := []
            stopped :=
              (((g1.pods.filter (fun kp => ¬ kp.2.extPod)).map (·.1))).reverse
            exc := some (.podErr kc.2) }
      | none =>
          { flow := { g1 with buildLevel := .running }
            started := (g1.pods.filter (fun kp => ¬ kp.2.extPod)).map (·.1)
            stopped := []
            exc := none }

/-- `BaseFlow.__eq__`: each operand whose build level is below GRAPH is built
in place (`build()` with the default `copy_flow=False`) before the pod maps
are compared; the post-comparison states of both operands are returned to
make the side effect observable. -/
def eqFlow (a b : BaseFlow) :
    Except FlowError (Bool × BaseFlow × BaseFlow) :=
  match (if a.buildLevel.val < BuildLevel.graph.val then buildF a
         else .ok a) with
  | .error e => .error e
  | .ok a1 =>
      match (if b.buildLevel.val < BuildLevel.graph.val then buildF b
             else .ok b) with
      | .error e => .error e
      | .ok b1 => .ok (decide (a1.pods = b1.pods), a1, b1)

/-- The state produced by a successful `add` (the insertions performed at the
end of `addSt`), factored out for reasoning. -/
def addCommit (g : BaseFlow) (n2 : String) (role : PodRole)
    (nds : Finset String) (hostArg : Option String) (portArg : Option Nat)
    (extArg : Bool) : BaseFlow :=
  let hp := resolveHost hostArg portArg
  { g with
    pods := odInsert g.pods n2
      { name := n2
        role := role
        needs := nds
        host := hp.1
        portExpose := hp.2
        extPod := extArg
        numPart := nds.card
        socketIn := 0
        socketOut := 0 }
    lastChanged :=
      if g.lastChanged ≠ [] && n2 = g.lastPod then g.lastChanged
      else n2 :: g.lastChanged
    buildLevel := .empty }

/-! ### Invariants -/

/-- The spec's invariant: no node's dependency set contains its own name. -/
def SelfFree (g : BaseFlow) : Prop := ∀ kp ∈ g.pods, kp.1 ∉ kp.2.needs

/-- No pod of the flow has an inspect-related role. -/
def NoInspectRole (g : BaseFlow) : Prop :=
  ∀ kp ∈ g.pods, kp.2.role.isInspect = false

/-- Models which graph the caller holds after a builder call: under
copy-on-write (`copy_flow=True`) the call ran on a deep copy, so the caller
keeps its original graph; in in-place mode the caller holds the threaded
state. -/
def callerGraph (copyFlow : Bool) (orig : BaseFlow)
    (r : Except FlowError Unit × BaseFlow) : BaseFlow :=
  if copyFlow then orig else r.2

/-- Unwraps a successful builder result (used to spell out concrete example
flows; every use is on a result known to be `.ok`). -/
def okD (x : Except FlowError BaseFlow) : BaseFlow :=
  match x with
  | .ok g => g
  | .error _ => initFlow .keep

/-- Example: `add("x2"); add("x")` — two pods, so the node count is 2 and a
further `add("x")` disambiguates to the already-used name `"x2"`. -/
def exampleCollide : BaseFlow :=
  okD (addPod (okD (addPod (initFlow .keep) "x2" .unset .pod)) "x" .unset .pod)

/-- Example: a COLLECT-policy flow `add("a"); inspect()`. -/
def exampleInspected : BaseFlow :=
  okD (inspectOp (okD (addPod (initFlow .collect) "a" .unset .pod)))

/-- Example: `add("joiner"); add("joiner2")`. -/
def exampleJoiners : BaseFlow :=
  okD (addPod (okD (addPod (initFlow .keep) "joiner" .unset .pod)) "joiner2"
    .unset .pod)

/-- Example: a flow whose pod `a` declares a dangling dependency `b`. -/
def exampleDangling : BaseFlow :=
  okD (addPod (initFlow .keep) "a" (.single "b") .pod)

/-- Example: a flow whose pod `c` declares the same dangling dependency
`b`. -/
def exampleDangling2 : BaseFlow :=
  okD (addPod (initFlow .keep) "c" (.single "b") .pod)

/-- Example: the one-pod flow `add("c")`, not yet built. -/
def exampleSimple : BaseFlow :=
  okD (addPod (initFlow .keep) "c" .unset .pod)

/-- The pod that `add("c")` stores into the empty flow. -/
def examplePodC : Pod :=
  { name := "c"
    role := .pod
    needs := {"gateway"}
    host := defaultHost
    portExpose := none
    extPod := false
    numPart := 1
    socketIn := 0
    socketOut := 0 }

/-- Example: the compiled one-pod flow `add("a"); build()`. -/
def exampleBuilt : BaseFlow :=
  okD (buildF (okD (addPod (initFlow .keep) "a" .unset .pod)))

/-- Example readiness oracle: pod `a` fails its readiness wait with cause
`boom`, every other pod reports ready. -/
def exampleReady : String → Option String :=
  fun k => if k = "a" then some "boom" else none

/-- Example: the result of `build()` on an empty flow. -/
def exampleEmptyBuilt : BaseFlow := okD (buildF (initFlow .collect))

/-! ### Association-list lemmas -/

theorem odLookup_odInsert_self {α : Type} (m : List (String × α)) (k : String)
    (v : α) : odLookup (odInsert m k v) k = some v := by
  induction m with
  | nil => simp [odInsert, odLookup]
  | cons hd t ih =>
      obtain ⟨k1, v1⟩ := hd
      by_cases h : k1 = k
      · simp [odInsert, h, odLookup]
      · simp [odInsert, h, odLookup, ih]

theorem odInsert_fresh {α : Type} (m : List (String × α)) (k : String) (v : α)
    (h : odLookup m k = none) : odInsert m k v = m ++ [(k, v)] := by
  induction m with
  | nil => simp [odInsert]
  | cons hd t ih =>
      obtain ⟨k1, v1⟩ := hd
      by_cases hk : k1 = k
      · simp [odLookup, hk] at h
      · simp [odLookup, hk] at h
        simp [odInsert, hk, ih h]

theorem odLookup_append_left {α : Type} (m m2 : List (String × α))
    (k : String) (v : α) (h : odLookup m k = some v) :
    odLookup (m ++ m2) k = some v := by
  induction m with
  | nil => simp [odLookup] at h
  | cons hd t ih =>
      obtain ⟨k1, v1⟩ := hd
      by_cases hk : k1 = k
      · simp [odLookup, hk] at h ⊢; exact h
      · simp [odLookup, hk] at h ⊢; exact ih h

theorem odLookup_append_right {α : Type} (m m2 : List (String × α))
    (k : String) (h : odLookup m k = none) :
    odLookup (m ++ m2) k = odLookup m2 k := by
  induction m with
  | nil => simp
  | cons hd t ih =>
      obtain ⟨k1, v1⟩ := hd
      by_cases hk : k1 = k
      · simp [odLookup, hk] at h
      · simp [odLookup, hk] at h ⊢; exact ih h

theorem mem_odInsert {α : Type} (m : List (String × α)) (k : String) (v : α)
    (kp : String × α) (h : kp ∈ odInsert m k v) : kp = (k, v) ∨ kp ∈ m := by
  induction m with
  | nil => simp [odInsert] at h; simp [h]
  | cons hd t ih =>
      obtain ⟨k1, v1⟩ := hd
      by_cases hk : k1 = k
      · simp [odInsert, hk] at h
        rcases h with h | h
        · exact Or.inl h
        · exact Or.inr (by simp [h])
      · simp [odInsert, hk] at h
        rcases h with h | h
        · exact Or.inr (by simp [h])
        · rcases ih h with h1 | h1
          · exact Or.inl h1
          · exact Or.inr (by simp [h1])

theorem odLookup_mem_values {α : Type} (m : List (String × α)) (k : String)
    (v : α) (h : odLookup m k = some v) : v ∈ odValues m := by
  induction m with
  | nil => simp [odLookup] at h
  | cons hd t ih =>
      obtain ⟨k1, v1⟩ := hd
      by_cases hk : k1 = k
      · simp [odLookup, hk] at h
        simp [odValues, h]
      · simp [odLookup, hk] at h
        simp [odValues] at ih ⊢
        exact Or.inr (ih h)

theorem odLookup_map_keyed {α β : Type} (ps : List (String × α))
    (f : String × α → β) (k : String) :
    odLookup (ps.map (fun kp => (kp.1, f kp))) k =
      (ps.find? (fun kp => kp.1 = k)).map f := by
  induction ps with
  | nil => simp [odLookup]
  | cons hd t ih =>
      by_cases hk : hd.1 = k
      · simp [odLookup, List.find?, hk]
      · simp [odLookup, List.find?, hk, ih]

theorem odLookup_find? {α : Type} (ps : List (String × α)) (k : String) :
    odLookup ps k = (ps.find? (fun kp => kp.1 = k)).map (·.2) := by
  induction ps with
  | nil => simp [odLookup]
  | cons hd t ih =>
      by_cases hk : hd.1 = k
      · simp [odLookup, List.find?, hk]
      · simp [odLookup, List.find?, hk, ih]

theorem odLookup_map_isSome {α β : Type} (ps : List (String × α))
    (f : String × α → β) (k : String) :
    (odLookup (ps.map (fun kp => (kp.1, f kp))) k).isSome =
      (odLookup ps k).isSome := by
  rw [odLookup_map_keyed, odLookup_find?]
  cases ps.find? (fun kp => kp.1 = k) <;> simp

theorem odKeys_map_keyed {α β : Type} (ps : List (String × α))
    (f : String × α → β) :
    odKeys (ps.map (fun kp => (kp.1, f kp))) = odKeys ps := by
  simp [odKeys, List.map_map]

theorem odLookup_filter {α : Type} (ps : List (String × α))
    (p : String × α → Bool) (k : String) (v : α)
    (h : odLookup ps k = some v) (hp : p (k, v) = true) :
    odLookup (ps.filter p) k = some v := by
  induction ps with
  | nil => simp [odLookup] at h
  | cons hd t ih =>
      obtain ⟨k1, v1⟩ := hd
      by_cases hk : k1 = k
      · subst hk
        simp [odLookup] at h
        subst h
        simp [List.filter, hp, odLookup]
      · simp [odLookup, hk] at h
        cases hpp : p (k1, v1) <;> simp [List.filter, hpp, odLookup, hk, ih h]

/-! ### Characterizations of the builder operations -/

theorem lastPodSetE_odInsert (g : BaseFlow) (n2 : String) (pod : Pod) :
    lastPodSetE { g with pods := odInsert g.pods n2 pod } n2 =
      .ok { g with
            pods := odInsert g.pods n2 pod
            lastChanged :=
              if g.lastChanged ≠ [] && n2 = g.lastPod then g.lastChanged
              else n2 :: g.lastChanged
            buildLevel := .empty } := by
  unfold lastPodSetE
  rw [odLookup_odInsert_self]
  simp [BaseFlow.lastPod]

theorem addSt_ident_false (g : BaseFlow) (nr : String) (ep : Endpoint)
    (role : PodRole) (ha : Option String) (pa : Option Nat) (ex : Bool)
    (hid : isIdent (resolveName g nr) = false) :
    addSt g nr ep role ha pa ex =
      (.error (.nameValidation
        ("name: " ++ resolveName g nr ++
         " is invalid, please follow the python variable name conventions")),
       g) := by
  unfold addSt
  simp [hid]

theorem addSt_parse_error (g : BaseFlow) (nr : String) (ep : Endpoint)
    (role : PodRole) (ha : Option String) (pa : Option Nat) (ex : Bool)
    (e : FlowError) (hid : isIdent (resolveName g nr) = true)
    (hp : parseEndpoints g (resolveName g nr) ep true = .error e) :
    addSt g nr ep role ha pa ex = (.error e, g) := by
  unfold addSt
  simp only [hid, Bool.not_true, Bool.false_eq_true, if_false, hp,
    not_true, ite_false]

theorem addSt_eq_ok (g : BaseFlow) (nr : String) (ep : Endpoint)
    (role : PodRole) (ha : Option String) (pa : Option Nat) (ex : Bool)
    (nds : Finset String) (hid : isIdent (resolveName g nr) = true)
    (hp : parseEndpoints g (resolveName g nr) ep true = .ok nds) :
    addSt g nr ep role ha pa ex =
      (.ok (), addCommit g (resolveName g nr) role nds ha pa ex) := by
  unfold addSt
  simp only [hid, Bool.not_true, Bool.false_eq_true, if_false, hp,
    not_true, ite_false]
  rw [lastPodSetE_odInsert]
  rfl

theorem addPod_ok_iff (g : BaseFlow) (nr : String) (ep : Endpoint)
    (role : PodRole) (ha : Option String) (pa : Option Nat) (ex : Bool)
    (g' : BaseFlow) :
    addPod g nr ep role ha pa ex = .ok g' ↔
      isIdent (resolveName g nr) = true ∧
      ∃ nds, parseEndpoints g (resolveName g nr) ep true = .ok nds ∧
        g' = addCommit g (resolveName g nr) role nds ha pa ex := by
  constructor
  · intro h
    unfold addPod at h
    cases hid : isIdent (resolveName g nr) with
    | false => rw [addSt_ident_false g nr ep role ha pa ex hid] at h; simp at h
    | true =>
        cases hpp : parseEndpoints g (resolveName g nr) ep true with
        | error e =>
            rw [addSt_parse_error g nr ep role ha pa ex e hid hpp] at h
            simp at h
        | ok nds =>
            rw [addSt_eq_ok g nr ep role ha pa ex nds hid hpp] at h
            simp only [Except.ok.injEq] at h
            exact ⟨rfl, nds, rfl, h.symm⟩
  · rintro ⟨hid, nds, hpp, rfl⟩
    unfold addPod
    rw [addSt_eq_ok g nr ep role ha pa ex nds hid hpp]

theorem parseEndpoints_ok_iff (g : BaseFlow) (pn : String) (ep : Endpoint)
    (cl : Bool) (nds : Finset String) :
    parseEndpoints g pn ep cl = .ok nds ↔
      (epList g ep cl).any (fun s => s = pn) = false ∧
      nds = ((epList g ep cl).map (fun e => odGetD g.inspectPods e e)).toFinset := by
  unfold parseEndpoints
  cases h : (epList g ep cl).any (fun s => s = pn) with
  | false =>
      rw [if_neg (by simp)]
      constructor
      · intro heq
        simp only [Except.ok.injEq] at heq
        exact ⟨rfl, heq.symm⟩
      · rintro ⟨-, rfl⟩
        rfl
  | true =>
      rw [if_pos rfl]
      constructor
      · intro heq
        exact absurd heq (by simp)
      · rintro ⟨hh, -⟩
        cases hh

theorem parseEndpoints_self_error (g : BaseFlow) (pn : String) (ep : Endpoint)
    (cl : Bool) (hmem : pn ∈ epList g ep cl) :
    parseEndpoints g pn ep cl =
      .error (.topology "the income/output of a pod can not be itself") := by
  unfold parseEndpoints
  have h : (epList g ep cl).any (fun s => s = pn) = true := by
    rw [List.any_eq_true]
    exact ⟨pn, hmem, by simp⟩
  simp [h]

theorem parseEndpoints_mem (g : BaseFlow) (pn : String) (ep : Endpoint)
    (cl : Bool) (nds : Finset String) (s : String)
    (hok : parseEndpoints g pn ep cl = .ok nds) (hs : s ∈ nds) :
    ∃ s0, s0 ∈ epList g ep cl ∧ s0 ≠ pn ∧
      odGetD g.inspectPods s0 s0 = s := by
  rw [parseEndpoints_ok_iff] at hok
  obtain ⟨hany, rfl⟩ := hok
  rw [List.mem_toFinset, List.mem_map] at hs
  obtain ⟨s0, h0, hsub⟩ := hs
  refine ⟨s0, h0, ?_, hsub⟩
  rw [List.any_eq_false] at hany
  have := hany s0 h0
  simpa using this

/-! ### Build-stage lemmas -/

theorem gatherStage_noInspect (g : BaseFlow) (h : NoInspectRole g) :
    gatherStage g = .ok g := by
  unfold gatherStage gatherInspect
  have hf : g.pods.filter (fun kp => kp.2.role = PodRole.inspect) = [] := by
    rw [List.filter_eq_nil_iff]
    intro kp hkp
    have := h kp hkp
    cases hr : kp.2.role <;> simp [hr, PodRole.isInspect] at this ⊢
  simp [hf]

theorem noInspect_gatewayStage (g : BaseFlow) (h : NoInspectRole g) :
    NoInspectRole (gatewayStage g) := by
  unfold gatewayStage
  split
  · exact h
  · intro kp hkp
    rcases mem_odInsert _ _ _ _ hkp with h1 | h1
    · rw [h1]
      rfl
    · exact h kp h1

theorem removeStage_noInspect (g : BaseFlow) (h : NoInspectRole g) :
    removeStage g = g := by
  unfold removeStage
  split
  · have hf : g.pods.filter (fun kp => ¬ kp.2.role.isInspect) = g.pods := by
      rw [List.filter_eq_self]
      intro kp hkp
      simp [h kp hkp]
    rw [hf]
  · rfl

theorem rewritePods_emptyMap (g : BaseFlow) (h : g.inspectPods = []) :
    rewritePods g = g.pods := by
  unfold rewritePods
  rw [h]
  have himg : ∀ s : Finset String,
      (s.image fun e => odGetD ([] : List (String × String)) e e) = s := by
    intro s
    have : (fun e => odGetD ([] : List (String × String)) e e) =
        fun e : String => e := by
      funext e
      simp [odGetD, odLookup]
    rw [this]
    exact Finset.image_id'
  have hfun : (fun kp : String × Pod =>
      (kp.1,
       { kp.2 with
         needs :=
           if g.inspectPolicy.isKeep then
             if kp.2.role.isInspect then kp.2.needs
             else kp.2.needs.image
               (fun e => odGetD ([] : List (String × String)) e e)
           else kp.2.needs.image
             (fun e => odGetD (reverseDict []) e e) })) =
      fun kp : String × Pod => kp := by
    funext kp
    have h1 : reverseDict [] = [] := rfl
    rw [h1, himg]
    simp only [ite_self]
  rw [hfun]
  simp

theorem gatewayStage_hasGateway (g : BaseFlow) :
    (odLookup (gatewayStage g).pods "gateway").isSome = true := by
  unfold gatewayStage
  split
  · assumption
  · unfold addGateway
    rw [odLookup_odInsert_self]
    rfl

theorem odKeys_socketAssign (ps : List (String × Pod)) :
    odKeys (socketAssign ps) = odKeys ps := by
  unfold socketAssign
  exact odKeys_map_keyed ps _

theorem odLookup_socketAssign_isSome (ps : List (String × Pod)) (k : String) :
    (odLookup (socketAssign ps) k).isSome = (odLookup ps k).isSome := by
  unfold socketAssign
  exact odLookup_map_isSome ps _ k

theorem findSome?_map_gen {α β γ : Type} (l : List α) (f : α → β)
    (F : β → Option γ) :
    List.findSome? F (l.map f) = List.findSome? (fun a => F (f a)) l := by
  induction l with
  | nil => rfl
  | cons hd t ih =>
      simp only [List.map_cons, List.findSome?_cons]
      cases F (f hd) <;> simp [ih]

theorem firstDangling_map_needs (l : List (String × Pod))
    (f : String × Pod → Pod) (hf : ∀ kp, (f kp).needs = kp.2.needs)
    (names : List String) :
    firstDangling (l.map (fun kp => (kp.1, f kp))) names =
      firstDangling l names := by
  unfold firstDangling
  rw [findSome?_map_gen]
  congr 1
  funext kp
  rw [hf kp]

theorem firstDangling_socketAssign (ps : List (String × Pod))
    (names : List String) :
    firstDangling (socketAssign ps) names = firstDangling ps names := by
  unfold socketAssign
  exact firstDangling_map_needs ps
    (fun kp =>
      { kp.2 with
        socketIn := kp.2.needs.card
        socketOut := (ps.filter (fun other => kp.1 ∈ other.2.needs)).length })
    (fun kp => rfl) names

theorem countNeeds_map (l : List (String × Pod)) (f : String × Pod → Pod)
    (hf : ∀ kp, (f kp).needs = kp.2.needs) (k : String) :
    ((l.map (fun kp => (kp.1, f kp))).filter
      (fun o => k ∈ o.2.needs)).length =
      (l.filter (fun o => k ∈ o.2.needs)).length := by
  induction l with
  | nil => rfl
  | cons hd t ih =>
      simp only [List.map_cons, List.filter_cons]
      by_cases hk : k ∈ hd.2.needs
      · have hk2 : k ∈ (f hd).needs := by rw [hf hd]; exact hk
        simp [hk, hk2, ih]
      · have hk2 : k ∉ (f hd).needs := by rw [hf hd]; exact hk
        simp [hk, hk2, ih]

theorem socketAssign_idem (ps : List (String × Pod)) :
    socketAssign (socketAssign ps) = socketAssign ps := by
  conv_lhs => rw [socketAssign, socketAssign]
  rw [List.map_map]
  rw [socketAssign]
  refine List.map_congr_left ?_
  intro kp hkp
  simp only [Function.comp_apply]
  have hcount := countNeeds_map ps
    (fun kp2 =>
      { kp2.2 with
        socketIn := kp2.2.needs.card
        socketOut := (ps.filter
          (fun other => kp2.1 ∈ other.2.needs)).length })
    (fun kp2 => rfl) kp.1
  rw [hcount]

theorem danglingMin_fold_none_iff (names : List String)
    (m : Multiset String) :
    Multiset.foldr (danglingStep names) none m = none ↔
      ∀ d ∈ m, d ∈ names := by
  induction m using Multiset.induction_on with
  | empty => simp
  | cons a m ih =>
      rw [Multiset.foldr_cons]
      by_cases ha : a ∈ names
      · rw [danglingStep_pos names a _ ha, ih]
        constructor
        · intro h d hd
          rcases Multiset.mem_cons.mp hd with h1 | h1
          · rw [h1]; exact ha
          · exact h d h1
        · intro h d hd
          exact h d (Multiset.mem_cons_of_mem hd)
      · rw [danglingStep_neg names a _ ha]
        constructor
        · intro h
          exfalso
          cases hco : Multiset.foldr (danglingStep names) none m <;>
            rw [hco] at h <;> simp [optMin] at h
        · intro h
          exact absurd (h a (Multiset.mem_cons_self a m)) ha

theorem danglingMin_eq_none_iff (names : List String) (s : Finset String) :
    danglingMin names s = none ↔ ∀ d ∈ s, d ∈ names := by
  unfold danglingMin
  exact danglingMin_fold_none_iff names s.val

theorem danglingMin_fold_some (names : List String) (m : Multiset String) :
    ∀ d, Multiset.foldr (danglingStep names) none m = some d →
      d ∈ m ∧ d ∉ names := by
  induction m using Multiset.induction_on with
  | empty => intro d h; simp at h
  | cons a m ih =>
      intro d h
      rw [Multiset.foldr_cons] at h
      by_cases ha : a ∈ names
      · rw [danglingStep_pos names a _ ha] at h
        obtain ⟨h1, h2⟩ := ih d h
        exact ⟨Multiset.mem_cons_of_mem h1, h2⟩
      · rw [danglingStep_neg names a _ ha] at h
        cases hco : Multiset.foldr (danglingStep names) none m with
        | none =>
            rw [hco] at h
            simp only [optMin, Option.some.injEq] at h
            subst h
            exact ⟨Multiset.mem_cons_self a m, ha⟩
        | some y =>
            rw [hco] at h
            simp only [optMin, Option.some.injEq] at h
            obtain ⟨hy1, hy2⟩ := ih y hco
            rcases min_cases y a with ⟨hmin, -⟩ | ⟨hmin, -⟩
            · rw [hmin] at h
              subst h
              exact ⟨Multiset.mem_cons_of_mem hy1, hy2⟩
            · rw [hmin] at h
              subst h
              exact ⟨Multiset.mem_cons_self a m, ha⟩

theorem danglingMin_eq_some (names : List String) (s : Finset String)
    (d : String) (h : danglingMin names s = some d) :
    d ∈ s ∧ d ∉ names := by
  unfold danglingMin at h
  exact danglingMin_fold_some names s.val d h

theorem noInspect_mem_socketAssign (ps : List (String × Pod))
    (h : ∀ kp ∈ ps, kp.2.role.isInspect = false) :
    ∀ kp ∈ socketAssign ps, kp.2.role.isInspect = false := by
  intro kp hkp
  unfold socketAssign at hkp
  rw [List.mem_map] at hkp
  obtain ⟨kp0, h0, rfl⟩ := hkp
  exact h kp0 h0

theorem selfFree_mem_socketAssign (ps : List (String × Pod))
    (h : ∀ kp ∈ ps, kp.1 ∉ kp.2.needs) :
    ∀ kp ∈ socketAssign ps, kp.1 ∉ kp.2.needs := by
  intro kp hkp
  unfold socketAssign at hkp
  rw [List.mem_map] at hkp
  obtain ⟨kp0, h0, rfl⟩ := hkp
  exact h kp0 h0

theorem firstDangling_eq_none_iff (ps : List (String × Pod))
    (names : List String) :
    firstDangling ps names = none ↔
      ∀ kp ∈ ps, ∀ d ∈ kp.2.needs, d ∈ names := by
  unfold firstDangling
  rw [List.findSome?_eq_none_iff]
  constructor
  · intro h kp hkp
    rw [← danglingMin_eq_none_iff names kp.2.needs]
    exact h kp hkp
  · intro h kp hkp
    rw [danglingMin_eq_none_iff names kp.2.needs]
    exact h kp hkp

theorem firstDangling_eq_some (ps : List (String × Pod))
    (names : List String) (d : String)
    (h : firstDangling ps names = some d) :
    ∃ kp ∈ ps, d ∈ kp.2.needs ∧ d ∉ names := by
  unfold firstDangling at h
  obtain ⟨kp, hkp, hfind⟩ := List.exists_of_findSome?_eq_some h
  obtain ⟨h1, h2⟩ := danglingMin_eq_some names kp.2.needs d hfind
  exact ⟨kp, hkp, h1, h2⟩

theorem buildF_ok_char (g g' : BaseFlow) (hni : NoInspectRole g) :
    buildF g = .ok g' ↔
      firstDangling (rewritePods (gatewayStage g))
          (odKeys (gatewayStage g).pods) = none ∧
      g' = { gatewayStage g with
             pods := socketAssign (rewritePods (gatewayStage g))
             buildLevel := .graph } := by
  have hbuild : buildF g =
      match firstDangling (rewritePods (gatewayStage g))
          (odKeys (gatewayStage g).pods) with
      | some d =>
          .error (.missingPod (d ++ " is not in this flow, misspelled name?"))
      | none =>
          .ok { gatewayStage g with
                pods := socketAssign (rewritePods (gatewayStage g))
                buildLevel := .graph } := by
    unfold buildF
    rw [gatherStage_noInspect g hni]
    simp only [removeStage_noInspect _ (noInspect_gatewayStage g hni)]
  rw [hbuild]
  cases hfd : firstDangling (rewritePods (gatewayStage g))
      (odKeys (gatewayStage g).pods) with
  | some d =>
      constructor
      · intro heq
        exact absurd heq (by simp)
      · rintro ⟨hh, -⟩
        cases hh
  | none =>
      constructor
      · intro heq
        simp only [Except.ok.injEq] at heq
        exact ⟨rfl, heq.symm⟩
      · rintro ⟨-, rfl⟩
        rfl

theorem addSt_error_state (g : BaseFlow) (nr : String) (ep : Endpoint)
    (role : PodRole) (ha : Option String) (pa : Option Nat) (ex : Bool)
    (e : FlowError) (gbad : BaseFlow)
    (h : addSt g nr ep role ha pa ex = (.error e, gbad)) : gbad = g := by
  cases hid : isIdent (resolveName g nr) with
  | false =>
      rw [addSt_ident_false g nr ep role ha pa ex hid] at h
      exact (Prod.mk.injEq _ _ _ _ ▸ h).2.symm
  | true =>
      cases hpp : parseEndpoints g (resolveName g nr) ep true with
      | error e2 =>
          rw [addSt_parse_error g nr ep role ha pa ex e2 hid hpp] at h
          exact (Prod.mk.injEq _ _ _ _ ▸ h).2.symm
      | ok nds =>
          rw [addSt_eq_ok g nr ep role ha pa ex nds hid hpp] at h
          exact absurd (Prod.mk.injEq _ _ _ _ ▸ h).1 (by simp)

theorem odLookup_rewritePods_isSome (g : BaseFlow) (k : String) :
    (odLookup (rewritePods g) k).isSome = (odLookup g.pods k).isSome := by
  unfold rewritePods
  exact odLookup_map_isSome g.pods _ k

/-- A successful `build` always leaves a `gateway` entry in the pod map and
the GRAPH build level (for a flow without inspect-role pods). -/
theorem buildF_ok_props (g g' : BaseFlow) (hni : NoInspectRole g)
    (hok : buildF g = .ok g') :
    g'.buildLevel = .graph ∧ (odLookup g'.pods "gateway").isSome = true := by
  rw [buildF_ok_char g g' hni] at hok
  obtain ⟨-, rfl⟩ := hok
  refine ⟨rfl, ?_⟩
  show (odLookup (socketAssign (rewritePods (gatewayStage g))) "gateway").isSome = true
  rw [odLookup_socketAssign_isSome, odLookup_rewritePods_isSome]
  exact gatewayStage_hasGateway g

theorem append_ne_empty_left (n r : String) (h : n ≠ "") : n ++ r ≠ "" := by
  intro heq
  have hd := congrArg String.data heq
  rw [String.data_append] at hd
  have hn : n.data = [] := (List.append_eq_nil.mp hd).1
  apply h
  cases n with
  | mk d =>
      have hd2 : d = [] := hn
      rw [hd2]

theorem portPat_colon_false (l : List Char) (h : ':' ∈ l) :
    portPat l = false := by
  have hall : l.all Char.isDigit = false := by
    rw [List.all_eq_false]
    exact ⟨':', h, by decide⟩
  unfold portPat
  rw [hall]
  simp

theorem findSplit_exact (h p : List Char) (hp : portPat p = true) :
    findSplit (h ++ ':' :: p) = some (h, p) := by
  induction h with
  | nil => simp [findSplit, hp]
  | cons c t ih =>
      show findSplit (c :: (t ++ ':' :: p)) = some (c :: t, p)
      unfold findSplit
      have hcol : ':' ∈ t ++ ':' :: p := by simp
      rw [portPat_colon_false _ hcol]
      simp [ih]

theorem matchHostPort_exact (h p : List Char) (hp : portPat p = true) :
    matchHostPort (String.mk (h ++ ':' :: p)) =
      some (String.mk h, String.mk p) := by
  unfold matchHostPort
  have hd : (String.mk (h ++ ':' :: p)).data = h ++ ':' :: p := rfl
  rw [hd, findSplit_exact h p hp]
  rfl

theorem mk_ne_defaultHost (h p : List Char) :
    String.mk (h ++ ':' :: p) ≠ defaultHost := by
  intro heq
  have hdat : (String.mk (h ++ ':' :: p)).data = defaultHost.data := by
    rw [heq]
  have hc : ':' ∈ (String.mk (h ++ ':' :: p)).data := by simp
  rw [hdat] at hc
  exact absurd hc (by decide)

theorem resolveHost_split (h p : List Char) (hp : portPat p = true) :
    resolveHost (some (String.mk (h ++ ':' :: p))) none =
      (String.mk h, some (digitsToNat p)) := by
  unfold resolveHost
  simp only [matchHostPort_exact h p hp, Option.isNone_none, Bool.and_true,
    ne_eq, decide_not]
  rw [if_pos (by simp [mk_ne_defaultHost h p])]

/-! ### Claim theorems -/

/-- C9: on every flow whose computed set of hanging pods is empty,
`needs_all` neither returns the flow unchanged nor inserts a joiner: it
delegates to `needs` with the empty list, which fails the `len(needs) > 1`
requirement and raises a `FlowTopologyError`. -/
theorem c9_needs_all_empty (g : BaseFlow) (joiner : String)
    (h : hangingPods g = []) :
    needsAllOp g joiner =
      .error (.topology
        "no need to wait for a single service, need len(needs) > 1") := by
  unfold needsAllOp
  rw [h]
  simp [needsOp, needsSt]

theorem c9_witness :
    hangingPods (initFlow .keep) = [] ∧
    needsAllOp (initFlow .keep) "joiner" =
      .error (.topology
        "no need to wait for a single service, need len(needs) > 1") :=
  ⟨rfl, c9_needs_all_empty (initFlow .keep) "joiner" rfl⟩

/-- C8: every error a builder call raises (invalid-identifier name,
self-dependency topology error, `needs` with too few predecessors) is raised
synchronously and leaves the graph exactly as it was — the pod map, the
`lastChanged` stack, the inspect map and the build level are untouched — both
for the in-place state (`addSt`/`needsSt` thread the state as it stands at
each raise point) and for the copy-on-write caller, which keeps its original
graph. -/
theorem c8_error_leaves_graph (g : BaseFlow) (nr : String) (ep : Endpoint)
    (role : PodRole) (ha : Option String) (pa : Option Nat) (ex : Bool)
    (names : List String) (jn : String) :
    (∀ e gbad, addSt g nr ep role ha pa ex = (.error e, gbad) → gbad = g) ∧
    (∀ e gbad, needsSt g names jn = (.error e, gbad) → gbad = g) ∧
    (∀ cf e gbad, addSt g nr ep role ha pa ex = (.error e, gbad) →
      callerGraph cf g (addSt g nr ep role ha pa ex) = g) := by
  refine ⟨fun e gbad h => addSt_error_state g nr ep role ha pa ex e gbad h,
    ?_, ?_⟩
  · intro e gbad h
    unfold needsSt at h
    by_cases hlen : names.length ≤ 1
    · rw [if_pos hlen] at h
      exact (Prod.mk.injEq _ _ _ _ ▸ h).2.symm
    · rw [if_neg hlen] at h
      exact addSt_error_state g jn (.many names) .join none none false e gbad h
  · intro cf e gbad h
    cases cf with
    | true => rfl
    | false =>
        show (addSt g nr ep role ha pa ex).2 = g
        rw [h]
        exact addSt_error_state g nr ep role ha pa ex e gbad h

theorem c8_witness :
    (addSt (initFlow .keep) "x" (.single "x") .pod none none false).2 =
      initFlow .keep :=
  (c8_error_leaves_graph (initFlow .keep) "x" (.single "x") .pod none none
      false ["a"] "joiner").1
    (.topology "the income/output of a pod can not be itself")
    (addSt (initFlow .keep) "x" (.single "x") .pod none none false).2
    (by rfl)

/-- C3 (amended): when during `start` the readiness wait of a non-external
pod fails, the flow is closed before the exception propagates: every entered
pod is stopped (in reverse entry order), no pod remains started, the gateway
is popped and the build level resets to EMPTY — but the propagated exception
is the originating pod's own exception re-raised unchanged (`raise`), not a
`StartupError` wrapper carrying the pod's identity. -/
theorem c3_rollback (g : BaseFlow) (ready : String → Option String)
    (k c : String) (hlev : g.buildLevel = .graph)
    (hf : firstFailure g.pods ready = some (k, c)) :
    startFlow g ready =
      { flow := closeFlow g
        started := []
        stopped :=
          ((g.pods.filter (fun kp => ¬ kp.2.extPod)).map (·.1)).reverse
        exc := some (.podErr c) } := by
  have h1 : (if g.buildLevel.val < BuildLevel.graph.val then buildF g
      else .ok g) = .ok g := by
    rw [hlev]
    simp [BuildLevel.val]
  unfold startFlow
  rw [h1]
  simp only [hf]

theorem c3_witness :
    startFlow exampleBuilt exampleReady =
      { flow := closeFlow exampleBuilt
        started := []
        stopped :=
          ((exampleBuilt.pods.filter (fun kp => ¬ kp.2.extPod)).map
            (·.1)).reverse
        exc := some (.podErr "boom") } :=
  c3_rollback exampleBuilt exampleReady "a" "boom" (by decide) (by decide)

/-- C3 counterexample: on a concrete built two-pod flow where pod `a` fails
its readiness wait, the propagated exception is the pod's own exception
(`podErr "boom"`), not a `StartupError` wrapping the failure and the node's
identity, contradicting the claim's description of the propagated error. -/
theorem c3_cex :
    (startFlow exampleBuilt exampleReady).exc = some (.podErr "boom") ∧
    ¬ ∃ n c, (startFlow exampleBuilt exampleReady).exc =
      some (.startupError n c) := by
  have h1 : (startFlow exampleBuilt exampleReady).exc =
      some (.podErr "boom") := by decide
  refine ⟨h1, ?_⟩
  rintro ⟨n, c, h2⟩
  rw [h1] at h2
  simp at h2

/-- C10: flow equality is not side-effect-free: an operand whose build level
is below GRAPH is compiled in place before the comparison — afterwards it is
the built flow, at level GRAPH, with a gateway pod present, and is a
different graph value from the original — while an operand already at GRAPH
or above is left unchanged (here the second operand). -/
theorem c10_eq_builds_in_place (a b a' : BaseFlow)
    (hlev : a.buildLevel = .empty) (hni : NoInspectRole a)
    (hok : buildF a = .ok a') (hb : b.buildLevel ≠ .empty) :
    ∃ d, eqFlow a b = .ok (d, a', b) ∧ a'.buildLevel = .graph ∧ a' ≠ a ∧
      (odLookup a'.pods "gateway").isSome = true := by
  obtain ⟨hlev', hgw⟩ := buildF_ok_props a a' hni hok
  have ha : (if a.buildLevel.val < BuildLevel.graph.val then buildF a
      else .ok a) = .ok a' := by
    rw [hlev]
    simpa [BuildLevel.val] using hok
  have hbif : (if b.buildLevel.val < BuildLevel.graph.val then buildF b
      else .ok b) = .ok b := by
    cases hbl : b.buildLevel with
    | empty => exact absurd hbl hb
    | graph => simp [BuildLevel.val]
    | running => simp [BuildLevel.val]
  refine ⟨decide (a'.pods = b.pods), ?_, hlev', ?_, hgw⟩
  · unfold eqFlow
    rw [ha, hbif]
  · intro heq
    rw [heq] at hlev'
    rw [hlev] at hlev'
    cases hlev'

theorem c10_witness :
    ∃ d, eqFlow exampleSimple exampleBuilt =
        .ok (d, okD (buildF exampleSimple), exampleBuilt) ∧
      (okD (buildF exampleSimple)).buildLevel = .graph ∧
      okD (buildF exampleSimple) ≠ exampleSimple ∧
      (odLookup (okD (buildF exampleSimple)).pods "gateway").isSome =
        true := by
  refine c10_eq_builds_in_place exampleSimple exampleBuilt
    (okD (buildF exampleSimple)) (by decide) ?_ (by rfl) (by decide)
  intro kp hkp
  fin_cases hkp
  rfl

/-- C4 (amended): an `add` whose requested name `n` already exists appends
the current node count, and — provided the disambiguated name `n + count` is
itself not already a key of the pod map — the call inserts a fresh node under
the disambiguated name, the pre-existing node stays reachable unchanged under
its original name, and the node count increases by exactly one.  (When the
disambiguated name does collide with an existing key, that node is silently
overwritten and the count does not change; see the counterexample.) -/
theorem c4_name_collision (g : BaseFlow) (n : String) (ep : Endpoint)
    (role : PodRole) (ha : Option String) (pa : Option Nat) (ex : Bool)
    (p0 : Pod) (g' : BaseFlow)
    (hne : n ≠ "")
    (hexist : odLookup g.pods n = some p0)
    (hfresh : odLookup g.pods (n ++ Nat.repr g.pods.length) = none)
    (hok : addPod g n ep role ha pa ex = .ok g') :
    odLookup g'.pods n = some p0 ∧
    (odLookup g'.pods (n ++ Nat.repr g.pods.length)).isSome = true ∧
    g'.pods.length = g.pods.length + 1 := by
  have hres : resolveName g n = n ++ Nat.repr g.pods.length := by
    unfold resolveName
    rw [hexist]
    simp only [Option.isSome_some, if_true, ite_true]
    rw [if_neg (append_ne_empty_left n (Nat.repr g.pods.length) hne)]
  rw [addPod_ok_iff] at hok
  obtain ⟨-, nds, -, rfl⟩ := hok
  rw [hres]
  unfold addCommit
  simp only
  rw [odInsert_fresh g.pods (n ++ Nat.repr g.pods.length) _ hfresh]
  refine ⟨odLookup_append_left g.pods _ n p0 hexist, ?_, by simp⟩
  rw [odLookup_append_right g.pods _ _ hfresh]
  simp [odLookup]

theorem c4_witness :
    odLookup (okD (addPod exampleSimple "c" .unset .pod)).pods "c" =
      some examplePodC ∧
    (odLookup (okD (addPod exampleSimple "c" .unset .pod)).pods
      ("c" ++ Nat.repr exampleSimple.pods.length)).isSome = true ∧
    (okD (addPod exampleSimple "c" .unset .pod)).pods.length =
      exampleSimple.pods.length + 1 :=
  c4_name_collision exampleSimple "c" .unset .pod none none false
    examplePodC (okD (addPod exampleSimple "c" .unset .pod))
    (by decide) (by decide) (by decide) (by rfl)

/-- C4 counterexample: on the flow `add("x2"); add("x")` (two nodes), a
further `add("x")` succeeds but disambiguates `"x"` to `"x" + 2 = "x2"`,
which already names the first node: the pre-existing node `x2` is
overwritten (its dependency set changes from `{gateway}` to `{x}`) and the
node count stays 2 instead of increasing to 3. -/
theorem c4_cex :
    ∃ g3, addPod exampleCollide "x" .unset .pod = .ok g3 ∧
      g3.pods.length = 2 ∧
      odLookup exampleCollide.pods "x2" ≠ odLookup g3.pods "x2" := by
  refine ⟨okD (addPod exampleCollide "x" .unset .pod), by rfl, by decide, ?_⟩
  decide

/-- C5 (amended): `needs` raises a `FlowTopologyError` for every argument
list with at most one element; and for two distinct names `a`, `b` of nodes
present in the flow that are not inspect-substituted, `needs([a, b])`
succeeds with a JOIN-role node whose dependency set is exactly `{a, b}` —
provided neither `a` nor `b` equals the name the joiner finally takes (the
requested `joiner`, disambiguated by the node count on collision; otherwise
the joiner's own-name check fires, see the counterexample). -/
theorem c5_needs_join :
    (∀ (g : BaseFlow) (names : List String) (jn : String),
      names.length ≤ 1 →
      needsOp g names jn =
        .error (.topology
          "no need to wait for a single service, need len(needs) > 1")) ∧
    (∀ (g : BaseFlow) (a b : String), a ≠ b →
      (odLookup g.pods a).isSome = true →
      (odLookup g.pods b).isSome = true →
      odLookup g.inspectPods a = none →
      odLookup g.inspectPods b = none →
      isIdent (resolveName g "joiner") = true →
      resolveName g "joiner" ≠ a → resolveName g "joiner" ≠ b →
      ∃ g' pd, needsOp g [a, b] "joiner" = .ok g' ∧
        odLookup g'.pods (resolveName g "joiner") = some pd ∧
        pd.role = .join ∧ pd.needs = {a, b}) := by
  constructor
  · intro g names jn hlen
    unfold needsOp needsSt
    rw [if_pos hlen]
  · intro g a b hab ha hb hia hib hid hna hnb
    have hlist : ([a, b] : List String) ≠ [] := by simp
    have heq : epList g (.many [a, b]) true = [a, b] := by
      simp only [epList]
      rw [if_neg hlist]
    have hany : (epList g (.many [a, b]) true).any
        (fun s => s = resolveName g "joiner") = false := by
      rw [heq]
      simp only [List.any_cons, List.any_nil, Bool.or_false,
        Bool.or_eq_false_iff, decide_eq_false_iff_not]
      exact ⟨fun h => hna h.symm, fun h => hnb h.symm⟩
    have hpar : parseEndpoints g (resolveName g "joiner") (.many [a, b])
        true = .ok {a, b} := by
      rw [parseEndpoints_ok_iff]
      refine ⟨hany, ?_⟩
      rw [heq]
      simp only [List.map_cons, List.map_nil]
      rw [show odGetD g.inspectPods a a = a by
        unfold odGetD; rw [hia]; rfl]
      rw [show odGetD g.inspectPods b b = b by
        unfold odGetD; rw [hib]; rfl]
      simp
    refine ⟨addCommit g (resolveName g "joiner") .join {a, b} none none
      false,
      { name := resolveName g "joiner"
        role := .join
        needs := {a, b}
        host := (resolveHost none none).1
        portExpose := (resolveHost none none).2
        extPod := false
        numPart := Finset.card {a, b}
        socketIn := 0
        socketOut := 0 }, ?_, ?_, rfl, rfl⟩
    · unfold needsOp needsSt
      rw [if_neg (by simp)]
      rw [addSt_eq_ok g "joiner" (.many [a, b]) .join none none false
        {a, b} hid hpar]
    · unfold addCommit
      simp only
      exact odLookup_odInsert_self g.pods (resolveName g "joiner") _

theorem c5_witness :
    (needsOp (initFlow .keep) ["a"] "joiner" =
      .error (.topology
        "no need to wait for a single service, need len(needs) > 1")) ∧
    (∃ g' pd, needsOp exampleCollide ["x2", "x"] "joiner" = .ok g' ∧
      odLookup g'.pods (resolveName exampleCollide "joiner") = some pd ∧
      pd.role = .join ∧ pd.needs = {"x2", "x"}) :=
  ⟨c5_needs_join.1 (initFlow .keep) ["a"] "joiner" (by decide),
   c5_needs_join.2 exampleCollide "x2" "x" (by decide) (by decide)
     (by decide) (by decide) (by decide) (by decide) (by decide) (by decide)⟩

/-- C5 counterexample: on the flow `add("joiner"); add("joiner2")`, the two
distinct existing names `joiner` and `joiner2` make `needs(["joiner",
"joiner2"])` raise a `FlowTopologyError` instead of succeeding: the joiner's
requested name `joiner` collides and is disambiguated to `joiner2`, which
equals one of the requested predecessors, so the self-dependency check
fires. -/
theorem c5_cex :
    needsOp exampleJoiners ["joiner", "joiner2"] "joiner" =
      .error (.topology "the income/output of a pod can not be itself") := by
  rfl

/-- C7: for every `add` whose configuration encodes the host as `h:p` with
`p` matching the bounded port pattern of `_regex_port` and no explicit
expose-port given, the stored node has host `h` and expose-port `p` (the
match splits at the last colon, since no valid port suffix contains a
colon). -/
theorem c7_host_port_split (g : BaseFlow) (nr : String) (ep : Endpoint)
    (role : PodRole) (ex : Bool) (h p : List Char) (g' : BaseFlow)
    (hp : portPat p = true)
    (hok : addPod g nr ep role (some (String.mk (h ++ ':' :: p))) none ex =
      .ok g') :
    ∃ pd, odLookup g'.pods (resolveName g nr) = some pd ∧
      pd.host = String.mk h ∧ pd.portExpose = some (digitsToNat p) := by
  rw [addPod_ok_iff] at hok
  obtain ⟨-, nds, -, rfl⟩ := hok
  unfold addCommit
  simp only
  refine ⟨_, odLookup_odInsert_self g.pods (resolveName g nr) _, ?_, ?_⟩
  · show (resolveHost (some (String.mk (h ++ ':' :: p))) none).1 = String.mk h
    rw [resolveHost_split h p hp]
  · show (resolveHost (some (String.mk (h ++ ':' :: p))) none).2 =
      some (digitsToNat p)
    rw [resolveHost_split h p hp]

theorem c7_witness :
    portPat "9999".data = true ∧
    digitsToNat "9999".data = 9999 ∧
    String.mk "1.2.3.4".data = "1.2.3.4" ∧
    (∃ pd,
      odLookup (okD (addPod (initFlow .keep) "n" .unset .pod
        (some (String.mk ("1.2.3.4".data ++ ':' :: "9999".data))) none
        false)).pods (resolveName (initFlow .keep) "n") = some pd ∧
      pd.host = String.mk "1.2.3.4".data ∧
      pd.portExpose = some (digitsToNat "9999".data)) :=
  ⟨by decide, by decide, by decide,
   c7_host_port_split (initFlow .keep) "n" .unset .pod false "1.2.3.4".data
     "9999".data
     (okD (addPod (initFlow .keep) "n" .unset .pod
       (some (String.mk ("1.2.3.4".data ++ ':' :: "9999".data))) none false))
     (by decide) (by rfl)⟩

/-- C6 (amended): for a flow whose inspect policy is not COLLECT (so the
gather step is skipped), `build()` raises a `FlowMissingPodError` if and only
if, after the inspection policy's substitution, some remaining node has a
dependency that is not the name of any node in the graph; the raised error
names the dangling reference — but only the dangling reference, not the
referencing node (see the counterexample). -/
theorem c6_missing_pod_iff (g : BaseFlow)
    (hpol : g.inspectPolicy ≠ .collect) :
    ((∃ e, buildF g = .error e) ↔
      ∃ kp ∈ rewritePods (removeStage (gatewayStage g)), ∃ d ∈ kp.2.needs,
        d ∉ odKeys (removeStage (gatewayStage g)).pods) ∧
    (∀ e, buildF g = .error e →
      ∃ d, (∃ kp ∈ rewritePods (removeStage (gatewayStage g)),
          d ∈ kp.2.needs ∧ d ∉ odKeys (removeStage (gatewayStage g)).pods) ∧
        e = .missingPod (d ++ " is not in this flow, misspelled name?")) := by
  have hg : gatherStage g = .ok g := by
    unfold gatherStage
    rw [if_neg hpol]
  have hbuild : buildF g =
      match firstDangling (rewritePods (removeStage (gatewayStage g)))
          (odKeys (removeStage (gatewayStage g)).pods) with
      | some d =>
          .error (.missingPod (d ++ " is not in this flow, misspelled name?"))
      | none =>
          .ok { removeStage (gatewayStage g) with
                pods := socketAssign
                  (rewritePods (removeStage (gatewayStage g)))
                buildLevel := .graph } := by
    unfold buildF
    rw [hg]
  rw [hbuild]
  cases hfd : firstDangling (rewritePods (removeStage (gatewayStage g)))
      (odKeys (removeStage (gatewayStage g)).pods) with
  | none =>
      constructor
      · constructor
        · rintro ⟨e, he⟩
          exact absurd he (by simp)
        · rintro ⟨kp, hkp, d, hd, hnot⟩
          rw [firstDangling_eq_none_iff] at hfd
          exact absurd (hfd kp hkp d hd) hnot
      · intro e he
        exact absurd he (by simp)
  | some d =>
      obtain ⟨kp, hkp, hd, hnot⟩ := firstDangling_eq_some _ _ d hfd
      constructor
      · constructor
        · rintro -
          exact ⟨kp, hkp, d, hd, hnot⟩
        · rintro -
          exact ⟨.missingPod (d ++ " is not in this flow, misspelled name?"),
            rfl⟩
      · intro e he
        simp only [Except.error.injEq] at he
        exact ⟨d, ⟨kp, hkp, hd, hnot⟩, he.symm⟩

theorem c6_witness :
    ∃ d, (∃ kp ∈ rewritePods (removeStage (gatewayStage exampleDangling)),
        d ∈ kp.2.needs ∧
        d ∉ odKeys (removeStage (gatewayStage exampleDangling)).pods) ∧
      FlowError.missingPod "b is not in this flow, misspelled name?" =
        .missingPod (d ++ " is not in this flow, misspelled name?") :=
  (c6_missing_pod_iff exampleDangling (by decide)).2
    (.missingPod "b is not in this flow, misspelled name?") (by rfl)

/-- C6 counterexample: two different flows — pod `a` referencing the missing
`b`, and pod `c` referencing the missing `b` — produce the exact same
`FlowMissingPodError` from `build()`: the error message names only the
dangling reference, so it cannot name the referencing node, contradicting
the claim that the error names both. -/
theorem c6_cex :
    buildF exampleDangling =
      .error (.missingPod "b is not in this flow, misspelled name?") ∧
    buildF exampleDangling2 =
      .error (.missingPod "b is not in this flow, misspelled name?") ∧
    exampleDangling ≠ exampleDangling2 :=
  ⟨by rfl, by rfl, by decide⟩

theorem gatewayStage_inspectPods (g : BaseFlow) :
    (gatewayStage g).inspectPods = g.inspectPods := by
  unfold gatewayStage addGateway
  split <;> rfl

theorem gatewayStage_eq_self (g : BaseFlow)
    (h : (odLookup g.pods "gateway").isSome = true) : gatewayStage g = g := by
  unfold gatewayStage
  rw [if_pos h]

theorem selfFree_gatewayStage (g : BaseFlow) (hsf : SelfFree g)
    (hlast : g.lastPod ≠ "gateway") : SelfFree (gatewayStage g) := by
  intro kp hkp
  unfold gatewayStage at hkp
  split at hkp
  · exact hsf kp hkp
  · unfold addGateway at hkp
    rcases mem_odInsert _ _ _ _ hkp with h1 | h1
    · rw [h1]
      simp only [Finset.mem_singleton]
      exact fun h2 => hlast h2.symm
    · exact hsf kp h1

/-- C1 (amended): (i) an endpoint name equal to the node's own requested
(post-disambiguation) name is rejected with a TopologyError — before the
inspect-map substitution; (ii) a successful `add` preserves the invariant
`name ∉ needs` provided the node's final name is not one of the auxiliary
names stored as `inspectMap` values (a stale value can otherwise redirect a
dependency onto the node's own name); (iii) a successful `build()` on a flow
with no inspect-role pods, an empty inspect map, and whose `lastChanged` top
is not `gateway` preserves the invariant for every node including the
synthesized gateway.  On the empty flow the synthesized gateway depends on
itself (see the counterexample). -/
theorem c1_self_needs :
    (∀ (g : BaseFlow) (pn : String) (l : List String), pn ∈ l →
      parseEndpoints g pn (.many l) true =
        .error (.topology "the income/output of a pod can not be itself")) ∧
    (∀ (g : BaseFlow) (nr : String) (ep : Endpoint) (role : PodRole)
      (ha : Option String) (pa : Option Nat) (ex : Bool) (g' : BaseFlow),
      SelfFree g →
      (∀ v ∈ odValues g.inspectPods, v ≠ resolveName g nr) →
      addPod g nr ep role ha pa ex = .ok g' →
      SelfFree g') ∧
    (∀ (g g' : BaseFlow), SelfFree g → NoInspectRole g →
      g.inspectPods = [] → g.lastPod ≠ "gateway" →
      buildF g = .ok g' → SelfFree g') := by
  refine ⟨?_, ?_, ?_⟩
  · intro g pn l hmem
    apply parseEndpoints_self_error
    simp only [epList]
    rw [if_neg (by rintro rfl; cases hmem)]
    exact hmem
  · intro g nr ep role ha pa ex g' hsf hvals hok
    rw [addPod_ok_iff] at hok
    obtain ⟨-, nds, hpar, rfl⟩ := hok
    intro kp hkp
    rcases mem_odInsert _ _ _ _ hkp with h1 | h1
    · rw [h1]
      intro hmem
      obtain ⟨s0, -, hs0ne, hsub⟩ :=
        parseEndpoints_mem g (resolveName g nr) ep true nds _ hpar hmem
      cases hlk : odLookup g.inspectPods s0 with
      | some v =>
          have hv : v = resolveName g nr := by
            unfold odGetD at hsub
            rw [hlk] at hsub
            exact hsub
          exact hvals v (odLookup_mem_values _ _ _ hlk) hv
      | none =>
          apply hs0ne
          unfold odGetD at hsub
          rw [hlk] at hsub
          exact hsub
    · exact hsf kp h1
  · intro g g' hsf hni hmap hlast hok
    rw [buildF_ok_char g g' hni] at hok
    obtain ⟨-, rfl⟩ := hok
    intro kp hkp
    have hmap2 : (gatewayStage g).inspectPods = [] := by
      rw [gatewayStage_inspectPods]
      exact hmap
    rw [show ({ gatewayStage g with
        pods := socketAssign (rewritePods (gatewayStage g))
        buildLevel := BuildLevel.graph } : BaseFlow).pods =
        socketAssign (rewritePods (gatewayStage g)) from rfl] at hkp
    rw [rewritePods_emptyMap _ hmap2] at hkp
    exact selfFree_mem_socketAssign _
      (selfFree_gatewayStage g hsf hlast) kp hkp

theorem c1_witness :
    (parseEndpoints (initFlow .keep) "x" (.many ["x"]) true =
      .error (.topology "the income/output of a pod can not be itself")) ∧
    SelfFree (okD (addPod exampleSimple "d" .unset .pod)) ∧
    SelfFree (okD (buildF exampleSimple)) :=
  ⟨c1_self_needs.1 (initFlow .keep) "x" ["x"] (by decide),
   c1_self_needs.2.1 exampleSimple "d" .unset .pod none none false
     (okD (addPod exampleSimple "d" .unset .pod))
     (by unfold SelfFree; decide) (by decide) (by rfl),
   c1_self_needs.2.2 exampleSimple (okD (buildF exampleSimple))
     (by unfold SelfFree; decide) (by unfold NoInspectRole; decide) rfl
     (by decide) (by rfl)⟩

/-- C1 counterexample: on a flow with no other nodes, `build()` synthesizes
the gateway with `needs = {lastChanged.top} = {'gateway'}`, so the gateway
node's dependency set contains its own name and the build still succeeds —
the claimed invariant fails for the synthesized gateway on the empty
flow. -/
theorem c1_cex :
    buildF (initFlow .collect) = .ok exampleEmptyBuilt ∧
    ∃ pd, odLookup exampleEmptyBuilt.pods "gateway" = some pd ∧
      "gateway" ∈ pd.needs := by
  refine ⟨by rfl, ?_⟩
  exact ⟨{ name := "gateway"
           role := .gateway
           needs := {"gateway"}
           host := defaultHost
           portExpose := none
           extPod := false
           numPart := 1
           socketIn := 1
           socketOut := 1 }, by decide, by decide⟩

/-- C2 (amended): building is idempotent on an otherwise-unchanged graph
without inspection state: for every flow with no inspect-role nodes and an
empty inspect map — under any of the three policies — a successful
`build()` result builds to itself, `build(build(G)) = build(G)` as complete
flow values (same node names, dependency sets, configuration and build
level).  Under COLLECT with at least one INSPECT node present the second
build inserts a fresh gather node, so idempotence fails (see the
counterexample). -/
theorem c2_build_idempotent (g g' : BaseFlow) (hni : NoInspectRole g)
    (hmap : g.inspectPods = []) (hok : buildF g = .ok g') :
    buildF g' = .ok g' := by
  rw [buildF_ok_char g g' hni] at hok
  obtain ⟨hfd, rfl⟩ := hok
  have hmap2 : (gatewayStage g).inspectPods = [] := by
    rw [gatewayStage_inspectPods]
    exact hmap
  rw [rewritePods_emptyMap _ hmap2] at hfd ⊢
  have hgw : (odLookup ({ gatewayStage g with
      pods := socketAssign ((gatewayStage g).pods)
      buildLevel := BuildLevel.graph } : BaseFlow).pods "gateway").isSome =
      true := by
    show (odLookup (socketAssign ((gatewayStage g).pods)) "gateway").isSome =
      true
    rw [odLookup_socketAssign_isSome]
    exact gatewayStage_hasGateway g
  have hni2 : NoInspectRole ({ gatewayStage g with
      pods := socketAssign ((gatewayStage g).pods)
      buildLevel := BuildLevel.graph } : BaseFlow) := by
    intro kp hkp
    exact noInspect_mem_socketAssign _ (noInspect_gatewayStage g hni) kp hkp
  rw [buildF_ok_char _ _ hni2]
  rw [gatewayStage_eq_self _ hgw]
  have hmap3 : ({ gatewayStage g with
      pods := socketAssign ((gatewayStage g).pods)
      buildLevel := BuildLevel.graph } : BaseFlow).inspectPods = [] := hmap2
  rw [rewritePods_emptyMap _ hmap3]
  constructor
  · show firstDangling (socketAssign ((gatewayStage g).pods))
      (odKeys (socketAssign ((gatewayStage g).pods))) = none
    rw [odKeys_socketAssign, firstDangling_socketAssign]
    exact hfd
  · show ({ gatewayStage g with
        pods := socketAssign ((gatewayStage g).pods)
        buildLevel := BuildLevel.graph } : BaseFlow) =
      { gatewayStage g with
        pods := socketAssign (socketAssign ((gatewayStage g).pods))
        buildLevel := BuildLevel.graph }
    rw [socketAssign_idem]

theorem c2_witness :
    buildF (okD (buildF exampleSimple)) = .ok (okD (buildF exampleSimple)) :=
  c2_build_idempotent exampleSimple (okD (buildF exampleSimple))
    (by unfold NoInspectRole; decide) rfl (by rfl)

/-- C2 counterexample: on a COLLECT-policy flow holding an INSPECT node
(`add("a"); inspect()`), the first `build()` produces 5 nodes but building
the result again produces 6 — the second `gather_inspect` sees the INSPECT
node still present and inserts a fresh join node — so
`compile(compile(G))` is not structurally equal to `compile(G)`. -/
theorem c2_cex :
    (buildF exampleInspected).map (fun h => h.pods.length) = .ok 5 ∧
    ((buildF exampleInspected).bind buildF).map (fun h => h.pods.length) =
      .ok 6 :=
  ⟨by rfl, by rfl⟩
